import Mathlib

/-!
# Verification of the React Native `ScrollResponder` mixin

A shallow embedding of `Libraries/Components/ScrollResponder.js`.

JS numbers (timestamps from `performanceNow()`, layout coordinates) are
modelled as `Int`.  Nullable JS values are `Option`s.  The mixin's mutable
`this.state` becomes the `State` structure threaded explicitly through the
handlers; handlers that in JS mutate `this.state` return the new state, and
handlers whose only effects are outbound calls (keyboard-dismissed
notification, `blurTextInput`, `scrollTo` command dispatch) return a record
of those effects.

External collaborators (`TextInputState`, the event payloads, the props
object) are modelled at their interface boundary, exactly as the source
reads them.
-/

/-- Embedding of `IS_ANIMATING_TOUCH_START_THRESHOLD_MS` (ScrollResponder.js line 110). -/
def IS_ANIMATING_TOUCH_START_THRESHOLD_MS : Int := 16

/-- The mixin's `State` record (ScrollResponder.js lines 112–118),
initialised by `scrollResponderMixinGetInitialState`. -/
structure State where
  isTouching : Bool
  lastMomentumScrollBeginTime : Int
  lastMomentumScrollEndTime : Int
  observedScrollSinceBecomingResponder : Bool
  becameResponderWhileAnimating : Bool
deriving Repr, DecidableEq

/-- Embedding of `scrollResponderMixinGetInitialState` (lines 125–139). -/
def scrollResponderMixinGetInitialState : State :=
  { isTouching := false
    lastMomentumScrollBeginTime := 0
    lastMomentumScrollEndTime := 0
    observedScrollSinceBecomingResponder := false
    becameResponderWhileAnimating := false }

/-- The `keyboardShouldPersistTaps` prop: `?(boolean | 'always' | 'never' |
'handled')`.  `undefinedTaps` stands for an absent (undefined/null) prop. -/
inductive KeyboardShouldPersistTaps where
  | undefinedTaps
  | boolTaps (b : Bool)
  | always
  | never
  | handled
deriving Repr, DecidableEq

/-- JS truthiness of the `keyboardShouldPersistTaps` prop value:
`undefined`, `null` and `false` are falsy; `true` and all three
non-empty strings are truthy. -/
def KeyboardShouldPersistTaps.truthy : KeyboardShouldPersistTaps → Bool
  | .undefinedTaps => false
  | .boolTaps b => b
  | _ => true

/-- The props the handlers read.  `disableScrollViewPanResponder` is a
nullable boolean compared with `=== true` in the source. -/
structure Props where
  disableScrollViewPanResponder : Option Bool
  keyboardShouldPersistTaps : KeyboardShouldPersistTaps
deriving Repr, DecidableEq

/-- The slice of `TextInputState` the mixin consults: the currently focused
field handle (nullable) and the `isTextInput` predicate on node handles. -/
structure TextInputEnv where
  currentlyFocusedField : Option Nat
  isTextInput : Nat → Bool

/-- A press event: the mixin only reads `e.target` (a nullable node
handle; the source guards it for truthiness, so `0` counts as absent). -/
structure PressEvent where
  target : Option Nat
deriving Repr, DecidableEq

/-- JS truthiness of `e.target`: absent or the number `0` is falsy. -/
def PressEvent.targetTruthy (e : PressEvent) : Bool :=
  match e.target with
  | none => false
  | some n => decide (n ≠ 0)

/-- Embedding of `TextInputState.isTextInput(e.target)` — only ever evaluated under a
truthiness guard on `e.target` in the source. -/
def targetIsTextInput (env : TextInputEnv) (e : PressEvent) : Bool :=
  match e.target with
  | none => false
  | some n => env.isTextInput n

/-- Embedding of `scrollResponderIsAnimating` (lines 415–424): true iff the time since
the last momentum-scroll end is below the 16 ms threshold, or the last
momentum end predates the last momentum begin.  `now` is the value
`performanceNow()` returns during the call. -/
def scrollResponderIsAnimating (now : Int) (s : State) : Bool :=
  decide (now - s.lastMomentumScrollEndTime <
      IS_ANIMATING_TOUCH_START_THRESHOLD_MS) ||
    decide (s.lastMomentumScrollEndTime < s.lastMomentumScrollBeginTime)

/-- Embedding of `scrollResponderHandleScrollShouldSetResponder` (lines 144–150). -/
def scrollResponderHandleScrollShouldSetResponder (props : Props)
    (s : State) : Bool :=
  if props.disableScrollViewPanResponder = some true then false
  else s.isTouching

/-- Embedding of `scrollResponderHandleStartShouldSetResponder` (lines 177–195).
Reads only props and `TextInputState`, never `this.state`. -/
def scrollResponderHandleStartShouldSetResponder (props : Props)
    (env : TextInputEnv) (e : PressEvent) : Bool :=
  if props.disableScrollViewPanResponder = some true then false
  else
    match env.currentlyFocusedField with
    | some f =>
        if props.keyboardShouldPersistTaps = .handled ∧ e.target ≠ some f
        then true else false
    | none => false

/-- Embedding of `scrollResponderHandleStartShouldSetResponderCapture` (lines 208–240).
The animating check comes first; the pan-responder-disabled check is only
reached when the view is not animating. -/
def scrollResponderHandleStartShouldSetResponderCapture (props : Props)
    (env : TextInputEnv) (now : Int) (s : State) (e : PressEvent) : Bool :=
  if scrollResponderIsAnimating now s then true
  else if props.disableScrollViewPanResponder = some true then false
  else
    let keyboardNeverPersistTaps :=
      !props.keyboardShouldPersistTaps.truthy ||
        props.keyboardShouldPersistTaps = .never
    if keyboardNeverPersistTaps ∧ env.currentlyFocusedField ≠ none ∧
        e.targetTruthy ∧ ¬targetIsTextInput env e
    then true else false

/-- Embedding of `scrollResponderHandleTerminationRequest` (lines 269–271). -/
def scrollResponderHandleTerminationRequest (s : State) : Bool :=
  !s.observedScrollSinceBecomingResponder

/-- The observable effects of `scrollResponderHandleResponderRelease`
(lines 297–315): whether `onScrollResponderKeyboardDismissed` fires, and
which input handle (if any) is passed to `TextInputState.blurTextInput`.
Both happen in the same guarded block. -/
structure ReleaseEffects where
  keyboardDismissedNotified : Bool
  blurredInput : Option Nat
deriving Repr, DecidableEq

/-- Embedding of `scrollResponderHandleResponderRelease` (lines 297–315): the guard is
`keyboardShouldPersistTaps !== true && keyboardShouldPersistTaps !==
'always' && currentlyFocusedTextInput != null && e.target !==
currentlyFocusedTextInput && !observedScrollSinceBecomingResponder &&
!becameResponderWhileAnimating`. -/
def scrollResponderHandleResponderRelease (props : Props)
    (env : TextInputEnv) (s : State) (e : PressEvent) : ReleaseEffects :=
  match env.currentlyFocusedField with
  | some f =>
      if props.keyboardShouldPersistTaps ≠ .boolTaps true ∧
          props.keyboardShouldPersistTaps ≠ .always ∧
          e.target ≠ some f ∧
          s.observedScrollSinceBecomingResponder = false ∧
          s.becameResponderWhileAnimating = false
      then { keyboardDismissedNotified := true, blurredInput := some f }
      else { keyboardDismissedNotified := false, blurredInput := none }
  | none => { keyboardDismissedNotified := false, blurredInput := none }

/-- Embedding of `scrollResponderHandleScroll` (lines 317–320): state change only. -/
def scrollResponderHandleScroll (s : State) : State :=
  { s with observedScrollSinceBecomingResponder := true }

/-- Embedding of `scrollResponderHandleResponderGrant` (lines 325–329): reset
`observedScrollSinceBecomingResponder`, then (after the host callback)
latch `becameResponderWhileAnimating` from the animating predicate.  `now`
is the `performanceNow()` value inside that `scrollResponderIsAnimating`
call. -/
def scrollResponderHandleResponderGrant (now : Int) (s : State) : State :=
  let s1 := { s with observedScrollSinceBecomingResponder := false }
  { s1 with becameResponderWhileAnimating := scrollResponderIsAnimating now s1 }

/-- Embedding of `scrollResponderHandleTouchStart` (lines 390–393): state change only. -/
def scrollResponderHandleTouchStart (s : State) : State :=
  { s with isTouching := true }

/-- Embedding of `scrollResponderHandleTouchEnd` (lines 278–282):
`isTouching = nativeEvent.touches.length !== 0`. -/
def scrollResponderHandleTouchEnd (remainingTouches : Nat) (s : State) :
    State :=
  { s with isTouching := decide (remainingTouches ≠ 0) }

/-- Embedding of `scrollResponderHandleTouchCancel` (lines 289–292). -/
def scrollResponderHandleTouchCancel (s : State) : State :=
  { s with isTouching := false }

/-- Embedding of `scrollResponderHandleMomentumScrollBegin` (lines 365–368). -/
def scrollResponderHandleMomentumScrollBegin (now : Int) (s : State) :
    State :=
  { s with lastMomentumScrollBeginTime := now }

/-- Embedding of `scrollResponderHandleMomentumScrollEnd` (lines 373–377). -/
def scrollResponderHandleMomentumScrollEnd (now : Int) (s : State) :
    State :=
  { s with lastMomentumScrollEndTime := now }

/-- One invocation of a state-touching handler of the mixin, with the
`performanceNow()` reading where the handler takes one.  Handlers that
never write `this.state` (touch-move, release, drag begin/end, the
keyboard listeners) are grouped as `pureForward`. -/
inductive Event where
  | touchStart
  | touchEnd (remainingTouches : Nat)
  | touchCancel
  | responderGrant (now : Int)
  | scroll
  | momentumScrollBegin (now : Int)
  | momentumScrollEnd (now : Int)
  | pureForward
deriving Repr, DecidableEq

/-- Dispatch one handler invocation on the state. -/
def step (s : State) : Event → State
  | .touchStart => scrollResponderHandleTouchStart s
  | .touchEnd n => scrollResponderHandleTouchEnd n s
  | .touchCancel => scrollResponderHandleTouchCancel s
  | .responderGrant now => scrollResponderHandleResponderGrant now s
  | .scroll => scrollResponderHandleScroll s
  | .momentumScrollBegin now => scrollResponderHandleMomentumScrollBegin now s
  | .momentumScrollEnd now => scrollResponderHandleMomentumScrollEnd now s
  | .pureForward => s

/-- Run a sequence of handler invocations left to right. -/
def run (s : State) (es : List Event) : State :=
  es.foldl step s

/-- Is the event a responder-grant? -/
def Event.isGrant : Event → Bool
  | .responderGrant _ => true
  | _ => false

/-- Is the event a scroll event (`scrollResponderHandleScroll`)? -/
def Event.isScroll : Event → Bool
  | .scroll => true
  | _ => false

/-- A keyboard event payload as the mixin reads it: only
`endCoordinates.screenY` is consulted. -/
structure KeyboardCoordinates where
  screenY : Int
deriving Repr, DecidableEq

/-- Embedding of `keyboardWillOpenTo`-shaped event record. -/
structure KeyboardEventPayload where
  endCoordinates : KeyboardCoordinates
deriving Repr, DecidableEq

/-- The instance fields of the mixin involved in the scroll-to-keyboard
operation.  `additionalScrollOffset` and `preventNegativeScrollOffset` are
written by `scrollResponderScrollNativeHandleToKeyboard` (lines 550–551)
and read by the measurement callback (lines 590, 596).
`additionalOffset` is a distinct instance property that exists only
because line 601 assigns to it; nothing ever reads it. -/
structure KeyboardScrollState where
  keyboardWillOpenTo : Option KeyboardEventPayload
  additionalScrollOffset : Int
  preventNegativeScrollOffset : Bool
  additionalOffset : Int
deriving Repr, DecidableEq

/-- Embedding of `x || 0` on a nullable JS number: `0` and absent both give `0`. -/
def jsNumOrZero : Option Int → Int
  | none => 0
  | some v => v

/-- Embedding of `!!b` on a nullable JS boolean. -/
def jsDoubleBang : Option Bool → Bool
  | some true => true
  | _ => false

/-- The parameter-capturing prefix of
`scrollResponderScrollNativeHandleToKeyboard` (lines 543–551):
`this.additionalScrollOffset = additionalOffset || 0` and
`this.preventNegativeScrollOffset = !!preventNegativeScrollOffset`.
The rest of the function asynchronously requests the layout measurement
whose success callback is `scrollResponderInputMeasureAndScrollToKeyboard`. -/
def scrollResponderScrollNativeHandleToKeyboard
    (additionalOffset : Option Int) (preventNegativeScrollOffset : Option Bool)
    (st : KeyboardScrollState) : KeyboardScrollState :=
  { st with
    additionalScrollOffset := jsNumOrZero additionalOffset
    preventNegativeScrollOffset := jsDoubleBang preventNegativeScrollOffset }

/-- A dispatched `scrollTo` command, as built by `scrollResponderScrollTo`
(lines 448–465) from an options object: `[x || 0, y || 0, animated !==
false]`. -/
structure ScrollToCommand where
  x : Int
  y : Int
  animated : Bool
deriving Repr, DecidableEq

/-- Embedding of `scrollResponderScrollTo` with an options object (the branch taken at
line 458 when the first argument is not a number). -/
def scrollResponderScrollTo (x y : Option Int) (animated : Option Bool) :
    ScrollToCommand :=
  { x := jsNumOrZero x, y := jsNumOrZero y, animated := animated ≠ some false }

/-- Embedding of `scrollResponderInputMeasureAndScrollToKeyboard` (lines 579–603):
computes the offset, optionally clamps it, dispatches the `scrollTo`
command, then runs the two trailing assignments
`this.additionalOffset = 0; this.preventNegativeScrollOffset = false;`
exactly as written.  Returns the dispatched command and the instance
state after the call.  `windowHeight` is `Dimensions.get('window').height`. -/
def scrollResponderInputMeasureAndScrollToKeyboard (windowHeight : Int)
    (st : KeyboardScrollState) (left top width height : Int) :
    ScrollToCommand × KeyboardScrollState :=
  let keyboardScreenY : Int :=
    match st.keyboardWillOpenTo with
    | some k => k.endCoordinates.screenY
    | none => windowHeight
  let scrollOffsetY : Int :=
    top - keyboardScreenY + height + st.additionalScrollOffset
  let scrollOffsetY : Int :=
    if st.preventNegativeScrollOffset then max 0 scrollOffsetY
    else scrollOffsetY
  let cmd := scrollResponderScrollTo (some 0) (some scrollOffsetY) (some true)
  (cmd, { st with additionalOffset := 0, preventNegativeScrollOffset := false })

/-- Embedding of `scrollResponderKeyboardWillShow` (lines 692–695), keyboard-state part. -/
def scrollResponderKeyboardWillShow (e : KeyboardEventPayload)
    (st : KeyboardScrollState) : KeyboardScrollState :=
  { st with keyboardWillOpenTo := some e }

/-- Embedding of `scrollResponderKeyboardWillHide` (lines 697–700), keyboard-state part. -/
def scrollResponderKeyboardWillHide (st : KeyboardScrollState) :
    KeyboardScrollState :=
  { st with keyboardWillOpenTo := none }

/-- Helper: over any run containing no responder-grant,
`observedScrollSinceBecomingResponder` ends up true exactly when it
started true or some scroll event occurred. -/
theorem observedScroll_run_of_no_grant (es : List Event) (s : State)
    (hg : es.all (fun ev => !ev.isGrant) = true) :
    (run s es).observedScrollSinceBecomingResponder =
      (s.observedScrollSinceBecomingResponder || es.any Event.isScroll) := by
  induction es generalizing s with
  | nil => simp [run]
  | cons e es ih =>
      simp only [List.all_cons, Bool.and_eq_true] at hg
      have hstep : (step s e).observedScrollSinceBecomingResponder =
          (s.observedScrollSinceBecomingResponder || e.isScroll) := by
        cases e <;>
          simp_all [step, Event.isGrant, Event.isScroll,
            scrollResponderHandleTouchStart, scrollResponderHandleTouchEnd,
            scrollResponderHandleTouchCancel, scrollResponderHandleScroll,
            scrollResponderHandleMomentumScrollBegin,
            scrollResponderHandleMomentumScrollEnd]
      have := ih (step s e) hg.2
      simp [run] at this ⊢
      rw [this, hstep]
      simp [Bool.or_assoc]

/-- C1: for every state and current time, `scrollResponderIsAnimating`
returns true iff the current time minus `lastMomentumScrollEndTime` is
strictly below 16 ms or `lastMomentumScrollEndTime` is strictly less than
`lastMomentumScrollBeginTime`; otherwise it returns false. -/
theorem C1_isAnimating_iff (now : Int) (s : State) :
    scrollResponderIsAnimating now s = true ↔
      (now - s.lastMomentumScrollEndTime < 16 ∨
        s.lastMomentumScrollEndTime < s.lastMomentumScrollBeginTime) := by
  simp [scrollResponderIsAnimating, IS_ANIMATING_TOUCH_START_THRESHOLD_MS]

/-- C7: the termination-request handler returns the negation of
`observedScrollSinceBecomingResponder`; consequently, after a
responder-grant followed by any grant-free run it returns true iff no
scroll event was handled since that grant. -/
theorem C7_terminationRequest (s : State) (t : Int) (es : List Event)
    (hg : es.all (fun ev => !ev.isGrant) = true) :
    (scrollResponderHandleTerminationRequest s =
        !s.observedScrollSinceBecomingResponder) ∧
      (scrollResponderHandleTerminationRequest
          (run (step s (.responderGrant t)) es) = !es.any Event.isScroll) := by
  refine ⟨rfl, ?_⟩
  rw [scrollResponderHandleTerminationRequest,
    observedScroll_run_of_no_grant es _ hg]
  simp [step, scrollResponderHandleResponderGrant]

/-- Witness for C7: a grant at time 0 followed by a touch-start and a
scroll yields false; a grant followed by a grant-free scroll-less run
yields true. -/
theorem C7_terminationRequest_witness :
    scrollResponderHandleTerminationRequest
        (run (step scrollResponderMixinGetInitialState (.responderGrant 0))
          [.touchStart, .scroll]) = !([Event.touchStart,
            Event.scroll].any Event.isScroll) :=
  (C7_terminationRequest scrollResponderMixinGetInitialState 0
    [.touchStart, .scroll] (by decide)).2

/-- C8: immediately after a responder-grant
`observedScrollSinceBecomingResponder` is false, and after any further
grant-free run it is true exactly when some scroll event occurred in that
run — it becomes true at the first scroll and stays true under every
other handler. -/
theorem C8_observedScroll_invariant (s : State) (t : Int) (es : List Event)
    (hg : es.all (fun ev => !ev.isGrant) = true) :
    ((step s (.responderGrant t)).observedScrollSinceBecomingResponder
        = false) ∧
      ((run (step s (.responderGrant t))
          es).observedScrollSinceBecomingResponder = es.any Event.isScroll) := by
  constructor
  · simp [step, scrollResponderHandleResponderGrant]
  · rw [observedScroll_run_of_no_grant es _ hg]
    simp [step, scrollResponderHandleResponderGrant]

/-- Witness for C8: from the initial state, a grant at time 0 followed by
a touch-start, a scroll and a momentum-begin leaves the flag true, and
the flag is false right after the grant. -/
theorem C8_observedScroll_invariant_witness :
    ((step scrollResponderMixinGetInitialState
        (.responderGrant 0)).observedScrollSinceBecomingResponder = false) ∧
      ((run (step scrollResponderMixinGetInitialState (.responderGrant 0))
          [.touchStart, .scroll, .momentumScrollBegin 5]
        ).observedScrollSinceBecomingResponder =
        [Event.touchStart, Event.scroll,
          Event.momentumScrollBegin 5].any Event.isScroll) :=
  C8_observedScroll_invariant scrollResponderMixinGetInitialState 0
    [.touchStart, .scroll, .momentumScrollBegin 5] (by decide)

/-- C9: the bubble-phase scroll-should-set-responder query returns true
iff `isTouching` is true and the pan responder is not disabled. -/
theorem C9_scrollShouldSetResponder_iff (props : Props) (s : State) :
    scrollResponderHandleScrollShouldSetResponder props s = true ↔
      (s.isTouching = true ∧
        props.disableScrollViewPanResponder ≠ some true) := by
  unfold scrollResponderHandleScrollShouldSetResponder
  split <;> simp_all

/-- C10: the bubble-phase start-should-set handler returns true exactly
when the pan responder is enabled, `keyboardShouldPersistTaps` is
`'handled'`, a text input is focused, and the event target differs from
it; it reads no other state (in particular not `isTouching`). -/
theorem C10_startShouldSetResponder_iff (props : Props) (env : TextInputEnv)
    (e : PressEvent) :
    scrollResponderHandleStartShouldSetResponder props env e = true ↔
      (props.disableScrollViewPanResponder ≠ some true ∧
        props.keyboardShouldPersistTaps = .handled ∧
        ∃ f, env.currentlyFocusedField = some f ∧ e.target ≠ some f) := by
  unfold scrollResponderHandleStartShouldSetResponder
  rcases h : env.currentlyFocusedField with _ | f <;> split <;> simp_all

/-- C2: on responder-release, the keyboard-dismissed notification fires
and the focused input is blurred exactly when the tap-dismiss policy is
neither boolean true nor `'always'`, a text input is focused, the release
target differs from it, no scroll was observed since the grant, and the
responder was not acquired mid-animation; otherwise neither effect
occurs. -/
theorem C2_release_effects_iff (props : Props) (env : TextInputEnv)
    (s : State) (e : PressEvent) :
    scrollResponderHandleResponderRelease props env s e =
      (if props.keyboardShouldPersistTaps ≠ .boolTaps true ∧
          props.keyboardShouldPersistTaps ≠ .always ∧
          env.currentlyFocusedField ≠ none ∧
          e.target ≠ env.currentlyFocusedField ∧
          s.observedScrollSinceBecomingResponder = false ∧
          s.becameResponderWhileAnimating = false
        then { keyboardDismissedNotified := true,
               blurredInput := env.currentlyFocusedField }
        else { keyboardDismissedNotified := false, blurredInput := none }) := by
  unfold scrollResponderHandleResponderRelease
  rcases h : env.currentlyFocusedField with _ | f
  · simp [h]
  · simp only [h]
    have hne : (some f : Option ℕ) ≠ none := by simp
    split <;> split <;> first | rfl | (exfalso; tauto)

/-- C3 counterexample: with the pan responder disabled
(`disableScrollViewPanResponder = some true`) but the view animating
(momentum end recorded at time 0, touch at time 10), the capture-phase
handler returns true, not false. -/
theorem C3_capture_counterexample :
    scrollResponderHandleStartShouldSetResponderCapture
      { disableScrollViewPanResponder := some true,
        keyboardShouldPersistTaps := .never }
      { currentlyFocusedField := some 1, isTextInput := fun _ => false }
      10 scrollResponderMixinGetInitialState { target := some 2 } = true :=
  rfl

/-- C3 (amended): when `disableScrollViewPanResponder` is true, the
capture-phase handler returns exactly the animating predicate — false
whenever the view is not animating, but true while it is. -/
theorem C3_capture_disabled_eq_isAnimating (props : Props)
    (env : TextInputEnv) (now : Int) (s : State) (e : PressEvent)
    (hd : props.disableScrollViewPanResponder = some true) :
    scrollResponderHandleStartShouldSetResponderCapture props env now s e =
      scrollResponderIsAnimating now s := by
  unfold scrollResponderHandleStartShouldSetResponderCapture
  rw [hd]
  split <;> simp_all

/-- Witness for the amended C3 at a concrete non-animating state. -/
theorem C3_capture_disabled_eq_isAnimating_witness :
    scrollResponderHandleStartShouldSetResponderCapture
      { disableScrollViewPanResponder := some true,
        keyboardShouldPersistTaps := .never }
      { currentlyFocusedField := some 1, isTextInput := fun _ => false }
      100 scrollResponderMixinGetInitialState { target := some 2 } =
      scrollResponderIsAnimating 100 scrollResponderMixinGetInitialState :=
  C3_capture_disabled_eq_isAnimating _ _ 100 _ _ rfl

/-- C4 counterexample: not animating (touch at time 100, both momentum
timestamps 0), policy `'never'`, a text input focused, target present and
not a text input — but the pan responder is disabled, so the handler
returns false where the claim demands true. -/
theorem C4_capture_counterexample :
    scrollResponderHandleStartShouldSetResponderCapture
      { disableScrollViewPanResponder := some true,
        keyboardShouldPersistTaps := .never }
      { currentlyFocusedField := some 3, isTextInput := fun _ => false }
      100 scrollResponderMixinGetInitialState { target := some 4 } = false :=
  rfl

/-- C4 (amended): the capture-phase handler returns true iff the view is
animating, or else the pan responder is enabled, the tap-dismiss policy
is the never-persist variant (absent/falsy or `'never'`), a text input is
focused, and the target is present and not a text input; and a
touch-start 10 ms after a momentum-end recorded at time 0 yields true. -/
theorem C4_capture_characterization (props : Props) (env : TextInputEnv)
    (now : Int) (s : State) (e : PressEvent) :
    (scrollResponderHandleStartShouldSetResponderCapture props env now s e
        = true ↔
      (scrollResponderIsAnimating now s = true ∨
        (props.disableScrollViewPanResponder ≠ some true ∧
          (props.keyboardShouldPersistTaps.truthy = false ∨
            props.keyboardShouldPersistTaps = .never) ∧
          env.currentlyFocusedField ≠ none ∧
          e.targetTruthy = true ∧
          targetIsTextInput env e = false))) ∧
      scrollResponderHandleStartShouldSetResponderCapture
        { disableScrollViewPanResponder := none,
          keyboardShouldPersistTaps := .undefinedTaps }
        { currentlyFocusedField := none, isTextInput := fun _ => false }
        10 (scrollResponderHandleMomentumScrollEnd 0
          scrollResponderMixinGetInitialState) { target := none } = true := by
  refine ⟨?_, rfl⟩
  unfold scrollResponderHandleStartShouldSetResponderCapture
  split
  · simp_all
  · split
    · simp_all
    · simp only [Bool.or_eq_true, Bool.not_eq_true', decide_eq_true_eq]
      split <;> simp_all

/-- C5: after the measurement callback completes, the
`additionalScrollOffset` field that the offset computation reads is NOT
reset to 0 — the trailing assignment at line 601 writes the unread
property `additionalOffset` instead — while `preventNegativeScrollOffset`
is reset to false.  Evaluated at a capture of `additionalOffset = 7`,
`preventNegativeScrollOffset = true`, then a successful measurement. -/
theorem C5_additionalScrollOffset_not_reset :
    (scrollResponderInputMeasureAndScrollToKeyboard 800
        (scrollResponderScrollNativeHandleToKeyboard (some 7) (some true)
          { keyboardWillOpenTo := none, additionalScrollOffset := 0,
            preventNegativeScrollOffset := false, additionalOffset := 0 })
        0 100 50 40).2 =
      { keyboardWillOpenTo := none, additionalScrollOffset := 7,
        preventNegativeScrollOffset := false, additionalOffset := 0 } :=
  rfl

/-- C6: the issued scroll command always has `x = 0`, `animated = true`,
and `y = top - keyboardScreenY + height + additionalScrollOffset` where
`keyboardScreenY` is the stored keyboard frame's `endCoordinates.screenY`
if a frame is stored and the window height otherwise, clamped below by 0
when `preventNegativeScrollOffset` is set; in particular a raw offset of
−40 under the clamp is issued as 0. -/
theorem C6_scrollTo_command (windowHeight : Int) (st : KeyboardScrollState)
    (left top width height : Int) :
    ((scrollResponderInputMeasureAndScrollToKeyboard windowHeight st
        left top width height).1.x = 0) ∧
      ((scrollResponderInputMeasureAndScrollToKeyboard windowHeight st
          left top width height).1.animated = true) ∧
      ((scrollResponderInputMeasureAndScrollToKeyboard windowHeight st
          left top width height).1.y =
        (let keyboardScreenY : Int :=
          match st.keyboardWillOpenTo with
          | some k => k.endCoordinates.screenY
          | none => windowHeight
        let raw : Int :=
          top - keyboardScreenY + height + st.additionalScrollOffset
        if st.preventNegativeScrollOffset then max 0 raw else raw)) ∧
      ((scrollResponderInputMeasureAndScrollToKeyboard 100
          { keyboardWillOpenTo := none, additionalScrollOffset := 0,
            preventNegativeScrollOffset := true, additionalOffset := 0 }
          0 50 0 10).1.y = 0) := by
  refine ⟨?_, ?_, ?_, rfl⟩ <;>
    cases h : st.keyboardWillOpenTo <;>
      simp [scrollResponderInputMeasureAndScrollToKeyboard,
        scrollResponderScrollTo, jsNumOrZero, h]
